import Mathlib

/-!
Verification of the subscription-renewal feature (Pix payment via a gateway,
poll and webhook confirmation, due-date extension).

Shallow embedding of:
  backend/src/controllers/SubscriptionController.ts
    (createSubscription, webhook, checkPaymentStatus)
  frontend/src/components/CheckoutPage/CheckoutSuccess/CheckoutSuccess.js
    (the polling effect)

Modelling conventions:
  - Timestamps are UTC milliseconds since the Unix epoch (Nat).  A stored
    due date is a calendar day (days since epoch, Nat) because the code
    persists it as a date-only "YYYY-MM-DD" string and `new Date` on such a
    string yields UTC midnight of that day.
  - The two Sequelize tables are association lists keyed by primary key;
    `findByPk` is `List.find?` on the id, `update` maps over the list.
  - The payment gateway is an oracle passed as an argument: `payment.get`
    is `Option PaymentInfo` (`none` = the SDK call threw), `payment.create`
    is a `GwCreateOutcome`.
  - JS truthiness checks on numbers (`!req.user?.companyId`, `if (data.id)`,
    `!response?.id`, `mpError.status || 500`) are modelled by comparing
    with 0.
  - `company.reload()` is modelled by the updated record itself (primary
    keys are the lookup keys, and the update just wrote that row).
-/

namespace Subscription

/-- Milliseconds per calendar day, the unit conversion used by the
`toISOString().split("T")[0]` truncation. -/
def msPerDay : Nat := 86400000

/-- The due-date extension computed identically at
SubscriptionController.ts:207-215 (webhook) and :290-298 (checkPaymentStatus):
`baseDate = currentDueDate < today ? today : currentDueDate`,
`expiresAt.setDate(expiresAt.getDate() + 30)`,
`expiresAt.toISOString().split("T")[0]`.
Input: stored due date as a day number, "now" in milliseconds.
Output: the new stored due date as a day number. -/
def computeNewDueDate (dueDay : Nat) (nowMs : Nat) : Nat :=
  let currentDueMs := dueDay * msPerDay
  let baseMs := if currentDueMs < nowMs then nowMs else currentDueMs
  (baseMs + 30 * msPerDay) / msPerDay

/-- Days since the Unix epoch of a proleptic-Gregorian calendar date
(valid for years ≥ 1970), used only to state concrete calendar examples. -/
def daysFromCivil (y m d : Nat) : Nat :=
  let y2 := if m ≤ 2 then y - 1 else y
  let era := y2 / 400
  let yoe := y2 - era * 400
  let mp := if m > 2 then m - 3 else m + 9
  let doy := (153 * mp + 2) / 5 + (d - 1)
  let doe := yoe * 365 + yoe / 4 - yoe / 100 + doy
  era * 146097 + doe - 719468

/-- One row of the Invoices table, the fields this feature reads or writes.
`value` is `none` when `Number(invoice.value)` would be NaN, otherwise the
numeric value. -/
structure Invoice where
  id : Int
  companyId : Int
  status : String
  value : Option Int
  paymentDate : Option Nat
  lastStatus : Option String
deriving DecidableEq, Repr

/-- One row of the Company table, the fields this feature reads or writes.
`dueDate` is a day number (stored as "YYYY-MM-DD"). -/
structure Company where
  id : Int
  planId : Int
  email : String
  name : String
  document : Option String
  dueDate : Nat
deriving DecidableEq, Repr

/-- One row of the Plan table (read-only here). -/
structure Plan where
  id : Int
  planName : String
deriving DecidableEq, Repr

/-- The persistent state touched by the feature. -/
structure DB where
  invoices : List Invoice
  companies : List Company
  plans : List Plan
deriving DecidableEq, Repr

/-- Embeds `Invoices.findByPk`. -/
def findInvoice (db : DB) (i : Int) : Option Invoice :=
  db.invoices.find? (fun inv => inv.id == i)

/-- Embeds `Company.findByPk`. -/
def findCompany (db : DB) (c : Int) : Option Company :=
  db.companies.find? (fun co => co.id == c)

/-- Embeds `Plan.findByPk`. -/
def findPlan (db : DB) (p : Int) : Option Plan :=
  db.plans.find? (fun pl => pl.id == p)

/-- Embeds `company.update({ dueDate: date })`. -/
def setCompanyDueDate (db : DB) (cid : Int) (d : Nat) : DB :=
  { db with companies :=
      db.companies.map (fun c => if c.id == cid then { c with dueDate := d } else c) }

/-- Embeds `invoice.update({ status: 'paid', paymentDate: new Date(), lastStatus })`. -/
def markInvoicePaid (db : DB) (iid : Int) (payMs : Nat) (last : String) : DB :=
  { db with invoices :=
      db.invoices.map (fun inv =>
        if inv.id == iid then
          { inv with status := "paid", paymentDate := some payMs, lastStatus := some last }
        else inv) }

/-- What `payment.get` reports: the gateway status string and the
external reference (the invoice id, set by createSubscription). -/
structure PaymentInfo where
  status : String
  refId : Int
deriving DecidableEq, Repr

/-- The payer/payment request built at SubscriptionController.ts:84-99 and
sent to `payment.create`.  Only the fields the spec talks about are kept;
`qr` data lives in the gateway's answer, not here. -/
structure PaymentData where
  transactionAmount : Int
  description : String
  payerEmail : String
  payerFirstName : String
  identificationType : String
  identificationNumber : String
  refId : Int
deriving DecidableEq, Repr

/-- The gateway's answer to `payment.create`: a response object whose `id`
may be absent (`none`) — JS also treats `id === 0` as missing via the
`!response?.id` truthiness check — or a thrown SDK error carrying an
optional HTTP status. -/
inductive GwCreateOutcome where
  | resp (id : Option Int) (qrCode : String) (qrCodeBase64 : String)
  | failure (status : Option Int) (msg : String)
deriving DecidableEq, Repr

/-- Body of the createSubscription HTTP answer: either the flat success
payload of SubscriptionController.ts:112-127 or the `{message}` error body
produced from a thrown AppError. -/
inductive CreateBody where
  | success (id : Int) (qrcode : String) (imagemQrcode : String)
      (imagemQrcodePix : String) (valorOriginal : Int) (plano : String)
      (cliente : String) (extReference : Int)
  | errMsg (msg : String)
deriving DecidableEq, Repr

/-- Observable outcome of one createSubscription request: the database
after the request, the HTTP status, the body, and the payment-creation
call issued to the gateway (`none` when the request failed before the
gateway call). -/
structure CreateOut where
  db : DB
  httpStatus : Nat
  body : CreateBody
  gatewayCall : Option PaymentData
deriving DecidableEq, Repr

/-- Embeds `createSubscription` (SubscriptionController.ts:13-156).
`userCompanyId` is `req.user?.companyId`; `invoiceId?` is the body's
`invoiceId` after Yup validation (`none` = absent or not a number, the
Yup failure path).  The checks appear in source order; every AppError is
re-wrapped by the outer catch with its own statusCode kept. -/
def createSubscription (userCompanyId : Option Int) (invoiceId? : Option Int)
    (db : DB) (gw : GwCreateOutcome) : CreateOut :=
  match userCompanyId with
  | none => ⟨db, 401, .errMsg "Usuário não autenticado", none⟩
  | some companyId =>
    if companyId = 0 then ⟨db, 401, .errMsg "Usuário não autenticado", none⟩
    else
      match invoiceId? with
      | none => ⟨db, 400, .errMsg "ID da fatura é obrigatório", none⟩
      | some invoiceId =>
        match findInvoice db invoiceId with
        | none => ⟨db, 404, .errMsg "Fatura não encontrada", none⟩
        | some invoice =>
          if invoice.companyId ≠ companyId then
            ⟨db, 403, .errMsg "Fatura não pertence à empresa", none⟩
          else
            match findCompany db companyId with
            | none => ⟨db, 404, .errMsg "Empresa não encontrada", none⟩
            | some company =>
              match findPlan db company.planId with
              | none => ⟨db, 404, .errMsg "Plano não encontrado", none⟩
              | some plan =>
                match invoice.value with
                | none =>
                  ⟨db, 400, .errMsg "Valor da fatura inválido ou menor/igual a zero", none⟩
                | some priceNumber =>
                  if priceNumber ≤ 0 then
                    ⟨db, 400, .errMsg "Valor da fatura inválido ou menor/igual a zero", none⟩
                  else
                    let pd : PaymentData :=
                      { transactionAmount := priceNumber
                        description := "Fatura #" ++ toString invoiceId ++ " - " ++ plan.planName
                        payerEmail := company.email
                        payerFirstName := company.name
                        identificationType :=
                          match company.document with
                          | some doc => if doc.length = 11 then "CPF" else "CNPJ"
                          | none => "CNPJ"
                        identificationNumber := company.document.getD ""
                        refId := invoiceId }
                    match gw with
                    | .resp id? qrCode qrCodeBase64 =>
                      match id? with
                      | none => ⟨db, 500, .errMsg "Erro ao gerar QR code PIX", some pd⟩
                      | some id =>
                        if id = 0 then
                          ⟨db, 500, .errMsg "Erro ao gerar QR code PIX", some pd⟩
                        else
                          ⟨db, 200,
                            .success id qrCode qrCodeBase64 qrCodeBase64 priceNumber
                              plan.planName company.name invoiceId,
                            some pd⟩
                    | .failure st msg =>
                      let code := match st with
                        | some s => if s = 0 then 500 else s.toNat
                        | none => 500
                      ⟨db, code, .errMsg ("Erro ao gerar QR code PIX: " ++ msg), some pd⟩

/-- The webhook request: route param `:type?`, body fields `action` and
`data.id`.  `dataId = none` covers both an absent `data.id` and an absent
`data` (the latter throws and is swallowed into the same `{ok:true}`). -/
structure WebhookReq where
  reqType : Option String
  action : Option String
  dataId : Option Int
deriving DecidableEq, Repr

/-- Body of a webhook answer: the `{ok:true}` acknowledgement or the
already-processed success body of SubscriptionController.ts:194-198
(`{status, success:true, message:"Pagamento já foi processado anteriormente!"}`). -/
inductive AckBody where
  | okTrue
  | prevProcessed (status : String)
deriving DecidableEq, Repr

/-- A socket.io broadcast `io.emit(name, {action, company})`. -/
structure SocketEvent where
  eventName : String
  eventAction : String
  company : Company
deriving DecidableEq, Repr

/-- Observable outcome of one webhook request. -/
structure WebhookOut where
  db : DB
  httpStatus : Nat
  body : AckBody
  events : List SocketEvent
deriving DecidableEq, Repr

/-- Embeds `webhook` (SubscriptionController.ts:158-262).  `gwGet` is the answer
of `payment.get({id: data.id})`, `none` meaning the SDK threw (the catch
answers `{ok:true}`).  `nowMs` is `new Date()`.  Every answer goes through
`res.json`, hence HTTP 200 on every path. -/
def webhook (req : WebhookReq) (db : DB) (gwGet : Option PaymentInfo)
    (nowMs : Nat) : WebhookOut :=
  if req.reqType ≠ some "mercadopago" then ⟨db, 200, .okTrue, []⟩
  else if req.action = some "payment.updated" ∨ req.action = some "payment.created" then
    match req.dataId with
    | none => ⟨db, 200, .okTrue, []⟩
    | some dataId =>
      if dataId = 0 then ⟨db, 200, .okTrue, []⟩
      else
        match gwGet with
        | none => ⟨db, 200, .okTrue, []⟩
        | some paymentInfo =>
          if paymentInfo.status = "approved" then
            match findInvoice db paymentInfo.refId with
            | none => ⟨db, 200, .okTrue, []⟩
            | some invoice =>
              if invoice.status = "paid" then
                ⟨db, 200, .prevProcessed paymentInfo.status, []⟩
              else
                match findCompany db invoice.companyId with
                | none => ⟨db, 200, .okTrue, []⟩
                | some company =>
                  let newDue := computeNewDueDate company.dueDate nowMs
                  let db1 := setCompanyDueDate db company.id newDue
                  let db2 := markInvoicePaid db1 invoice.id nowMs paymentInfo.status
                  ⟨db2, 200, .okTrue,
                    [⟨"company-" ++ toString company.id ++ "-payment", "CONCLUIDA",
                      { company with dueDate := newDue }⟩]⟩
          else ⟨db, 200, .okTrue, []⟩
  else ⟨db, 200, .okTrue, []⟩

/-- Body of a checkPaymentStatus answer, one constructor per `res.json`
shape of SubscriptionController.ts:264-336 plus the thrown AppError. -/
inductive PollBody where
  | approvedNew (status : String) (company : Company)
  | prevProcessed (status : String)
  | notApproved (status : String)
  | errMsg (msg : String)
deriving DecidableEq, Repr

/-- Observable outcome of one checkPaymentStatus request. -/
structure PollOut where
  db : DB
  httpStatus : Nat
  body : PollBody
  events : List SocketEvent
deriving DecidableEq, Repr

/-- Embeds `checkPaymentStatus` (SubscriptionController.ts:264-336).  `gwGet` is
the answer of `payment.get({id: paymentId})`, `none` meaning the SDK threw
(rethrown as AppError 500).  No socket event is ever emitted here. -/
def checkPaymentStatus (db : DB) (gwGet : Option PaymentInfo)
    (nowMs : Nat) : PollOut :=
  match gwGet with
  | none => ⟨db, 500, .errMsg "Erro ao verificar status do pagamento", []⟩
  | some paymentInfo =>
    if paymentInfo.status = "approved" then
      match findInvoice db paymentInfo.refId with
      | none => ⟨db, 200, .notApproved paymentInfo.status, []⟩
      | some invoice =>
        if invoice.status = "paid" then
          ⟨db, 200, .prevProcessed paymentInfo.status, []⟩
        else
          match findCompany db invoice.companyId with
          | none => ⟨db, 200, .notApproved paymentInfo.status, []⟩
          | some company =>
            let newDue := computeNewDueDate company.dueDate nowMs
            let db1 := setCompanyDueDate db company.id newDue
            let db2 := markInvoicePaid db1 invoice.id nowMs paymentInfo.status
            ⟨db2, 200, .approvedNew paymentInfo.status { company with dueDate := newDue }, []⟩
    else ⟨db, 200, .notApproved paymentInfo.status, []⟩

/-! The client-side poller (CheckoutSuccess.js:20-66), as a state machine.
One `pollerStep` is one run of `checkPayment` (which only happens while the
interval is active); `CycleOutcome` is what the awaited request produced:
`success` = `data.success` true with a `data.company` payload,
`successNoCompany` = `data.success` true but no `data.company` (the poll
endpoint's already-paid body `{status, success:true, message}`, reachable
when the webhook confirmed first — line 32 then throws a TypeError reading
`data.company.dueDate`, after `setIsChecking(false)` and `clearInterval`
but before `attempts++`), `failure` = `data.success` false, `error` = the
awaited request itself threw (reaching the catch block with the state
untouched; the 401/403 toast-and-redirect side effect mutates none of the
tracked fields). -/

/-- UI status: `checking` while polling, `confirmed` after the full
success branch, `halted` after a success-shaped answer without the company
payload (spinner off, interval cleared, the TypeError swallowed by the
catch, no toast), `expired` after the attempt budget is exhausted. -/
inductive PollerStatus where
  | checking
  | confirmed
  | halted
  | expired
deriving DecidableEq, Repr

/-- What one `checkPayment` cycle observed. -/
inductive CycleOutcome where
  | success
  | successNoCompany
  | failure
  | error
deriving DecidableEq, Repr

/-- Poller state: the closed-over `attempts` counter, the UI status, and
whether the `setInterval` timer is still active. -/
structure PollerState where
  attempts : Nat
  status : PollerStatus
  timerActive : Bool
deriving DecidableEq, Repr

/-- Embeds `maxAttempts` (CheckoutSuccess.js:23). -/
def maxAttempts : Nat := 120

/-- State on mount: `attempts = 0`, checking, interval armed. -/
def pollerInit : PollerState := ⟨0, .checking, true⟩

/-- One `checkPayment` cycle (CheckoutSuccess.js:25-52).  No cycle runs
once the interval is cleared.  On `success`: stop checking, clear the
interval, then `attempts++` still runs.  On `successNoCompany`: stop
checking and clear the interval (lines 30-31), then the toast's
`data.company.dueDate` read throws into the catch before `attempts++`, so
the counter keeps its value and no terminal toast fires.  On `failure`:
expire iff `attempts >= maxAttempts` held at entry, then `attempts++`.  On
`error` (the request threw): `attempts` is not touched and the interval
stays armed. -/
def pollerStep (s : PollerState) (o : CycleOutcome) : PollerState :=
  if ¬ s.timerActive then s
  else
    match o with
    | .success => { attempts := s.attempts + 1, status := .confirmed, timerActive := false }
    | .successNoCompany => { attempts := s.attempts, status := .halted, timerActive := false }
    | .failure =>
      if maxAttempts ≤ s.attempts then
        { attempts := s.attempts + 1, status := .expired, timerActive := false }
      else
        { s with attempts := s.attempts + 1 }
    | .error => s

/-- The effect cleanup (CheckoutSuccess.js:61-65): clear the interval. -/
def pollerUnmount (s : PollerState) : PollerState :=
  { s with timerActive := false }

/-- Written from the claim's words (C2), to be compared with
`createSubscription`: the first violated constraint, in the claim's order,
determines the error status — authenticated (401), invoice identifier
present (400), invoice exists (404), invoice owned by the caller's tenant
(403), tenant exists (404), tenant's plan exists (404), invoice value a
positive number (400).  `none` = every validation passes. -/
def createValidationStatus (userCompanyId : Option Int) (invoiceId? : Option Int)
    (db : DB) : Option Nat :=
  match userCompanyId with
  | none => some 401
  | some companyId =>
    if companyId = 0 then some 401
    else
      match invoiceId? with
      | none => some 400
      | some invoiceId =>
        match findInvoice db invoiceId with
        | none => some 404
        | some invoice =>
          if invoice.companyId ≠ companyId then some 403
          else
            match findCompany db companyId with
            | none => some 404
            | some company =>
              match findPlan db company.planId with
              | none => some 404
              | some _ =>
                match invoice.value with
                | none => some 400
                | some v => if v ≤ 0 then some 400 else none

/-! Helper lemmas shared by several results. -/

theorem computeNewDueDate_eq (d n : Nat) :
    computeNewDueDate d n = max d (n / msPerDay) + 30 := by
  show ((if d * msPerDay < n then n else d * msPerDay) + 30 * msPerDay) / msPerDay
      = max d (n / msPerDay) + 30
  have hms : 0 < msPerDay := by norm_num [msPerDay]
  by_cases h : d * msPerDay < n
  · rw [if_pos h, Nat.add_mul_div_right _ _ hms,
      Nat.max_eq_right ((Nat.le_div_iff_mul_le hms).2 h.le)]
  · have hle : n ≤ d * msPerDay := Nat.not_lt.1 h
    have hdle : n / msPerDay ≤ d := by
      have h2 := Nat.div_le_div_right (c := msPerDay) hle
      rwa [Nat.mul_div_cancel _ hms] at h2
    rw [if_neg h, ← Nat.add_mul, Nat.mul_div_cancel _ hms, Nat.max_eq_left hdle]

theorem computeNewDueDate_ge (d n : Nat) : d ≤ computeNewDueDate d n := by
  rw [computeNewDueDate_eq]
  exact le_trans (le_max_left _ _) (Nat.le_add_right _ _)

/-- C1: the subscription extension, computed identically in the poll path
and the webhook path (both embedded as `computeNewDueDate`), maps a due
date D and a time N to max(D, N) + 30 days at date-only precision; in
particular extend(2024-01-10, 2024-01-05) = 2024-02-09 and
extend(2024-01-01, 2024-03-01) = 2024-03-31. -/
theorem c1_extension_is_max_plus_30_days :
    (∀ dueDay nowMs,
      computeNewDueDate dueDay nowMs = max dueDay (nowMs / msPerDay) + 30)
    ∧ computeNewDueDate (daysFromCivil 2024 1 10) (daysFromCivil 2024 1 5 * msPerDay)
        = daysFromCivil 2024 2 9
    ∧ computeNewDueDate (daysFromCivil 2024 1 1) (daysFromCivil 2024 3 1 * msPerDay)
        = daysFromCivil 2024 3 31 :=
  ⟨computeNewDueDate_eq, by decide, by decide⟩

/-- C2: createSubscription checks its constraints in the claim's order and
the first violated one fixes the HTTP error status (no gateway call is
made in that case); when every validation passes, the gateway call is
issued. -/
theorem c2_creation_checks_in_order (u iv : Option Int) (db : DB) (gw : GwCreateOutcome) :
    (∀ s, createValidationStatus u iv db = some s →
        (createSubscription u iv db gw).httpStatus = s ∧
        (createSubscription u iv db gw).gatewayCall = none)
    ∧ (createValidationStatus u iv db = none →
        ((createSubscription u iv db gw).gatewayCall).isSome = true) := by
  refine ⟨fun s hs => ?_, fun hn => ?_⟩
  · unfold createValidationStatus at hs
    unfold createSubscription
    repeat' split at hs
    all_goals simp_all
  · unfold createValidationStatus at hn
    unfold createSubscription
    repeat' split at hn
    all_goals try simp_all
    all_goals repeat' split
    all_goals try simp_all
    all_goals omega

/-- Witness for C2 at a concrete input: a request whose body lacks the
invoice identifier is answered 400 with no gateway call. -/
theorem c2_creation_checks_in_order_witness :
    (createSubscription (some 1) none ⟨[], [], []⟩ (.failure none "down")).httpStatus = 400 ∧
    (createSubscription (some 1) none ⟨[], [], []⟩ (.failure none "down")).gatewayCall = none :=
  (c2_creation_checks_in_order (some 1) none ⟨[], [], []⟩ (.failure none "down")).1
    400 (by decide)

/-- C10: createSubscription never writes the Invoice or Company (or Plan)
records on any path — success, any validation failure, or gateway failure:
the database after the request is the database before it. -/
theorem c10_creation_writes_nothing (u iv : Option Int) (db : DB) (gw : GwCreateOutcome) :
    (createSubscription u iv db gw).db = db := by
  unfold createSubscription
  repeat' split
  all_goals rfl

/-- Counterexample for C5: with an authenticated caller and `invoiceId: 0`
in the body (and no invoice of id 0), createSubscription answers 404, not
the claimed 400 — `Yup.number().required()` accepts 0, so 0 reaches the
`findByPk` lookup. -/
theorem c5_counterexample :
    (createSubscription (some 1) (some 0) ⟨[], [], []⟩ (.failure none "down")).httpStatus = 404 ∧
    ¬ (createSubscription (some 1) (some 0) ⟨[], [], []⟩
        (.failure none "down")).httpStatus = 400 := by
  decide

/-- C5 as amended: a missing invoiceId is rejected with 400; an invoiceId
of 0 passes body validation and is treated as an ordinary lookup, yielding
404 when no invoice with id 0 exists; an invoice of another tenant is
rejected with 403; a non-existent invoice is rejected with 404. -/
theorem c5_amended_rejections (u : Option Int) (cid iid : Int) (db : DB)
    (gw : GwCreateOutcome) (inv : Invoice) :
    (u = some cid → cid ≠ 0 →
      (createSubscription u none db gw).httpStatus = 400)
    ∧ (u = some cid → cid ≠ 0 → findInvoice db 0 = none →
      (createSubscription u (some 0) db gw).httpStatus = 404)
    ∧ (u = some cid → cid ≠ 0 → findInvoice db iid = some inv → inv.companyId ≠ cid →
      (createSubscription u (some iid) db gw).httpStatus = 403)
    ∧ (u = some cid → cid ≠ 0 → findInvoice db iid = none →
      (createSubscription u (some iid) db gw).httpStatus = 404) := by
  refine ⟨fun h1 h2 => ?_, fun h1 h2 h3 => ?_, fun h1 h2 h3 h4 => ?_, fun h1 h2 h3 => ?_⟩ <;>
    subst h1 <;> unfold createSubscription <;> simp_all

/-- Witness for C5 as amended, at concrete inputs: missing invoiceId → 400,
invoiceId 0 → 404, another tenant's invoice → 403, unknown invoice → 404. -/
theorem c5_amended_rejections_witness :
    (createSubscription (some 1) none
        ⟨[⟨7, 2, "pending", some 10, none, none⟩], [], []⟩ (.failure none "down")).httpStatus = 400
    ∧ (createSubscription (some 1) (some 0)
        ⟨[⟨7, 2, "pending", some 10, none, none⟩], [], []⟩ (.failure none "down")).httpStatus = 404
    ∧ (createSubscription (some 1) (some 7)
        ⟨[⟨7, 2, "pending", some 10, none, none⟩], [], []⟩ (.failure none "down")).httpStatus = 403
    ∧ (createSubscription (some 1) (some 8)
        ⟨[⟨7, 2, "pending", some 10, none, none⟩], [], []⟩ (.failure none "down")).httpStatus = 404 := by
  have h := c5_amended_rejections (some 1) 1 7
    ⟨[⟨7, 2, "pending", some 10, none, none⟩], [], []⟩ (.failure none "down")
    ⟨7, 2, "pending", some 10, none, none⟩
  have h8 := c5_amended_rejections (some 1) 1 8
    ⟨[⟨7, 2, "pending", some 10, none, none⟩], [], []⟩ (.failure none "down")
    ⟨7, 2, "pending", some 10, none, none⟩
  exact ⟨h.1 rfl (by decide), h.2.1 rfl (by decide) (by decide),
    h.2.2.1 rfl (by decide) (by decide) (by decide),
    h8.2.2.2 rfl (by decide) (by decide)⟩

/-- C7: whenever createSubscription reaches the gateway call, the payer
identification type it sends is "CPF" exactly when the tenant's document
is 11 characters long, and "CNPJ" in every other case, an absent document
included. -/
theorem c7_identification_type (u iv : Option Int) (db : DB) (gw : GwCreateOutcome)
    (cid : Int) (c : Company) (pd : PaymentData)
    (hu : u = some cid) (hc : findCompany db cid = some c)
    (hpd : (createSubscription u iv db gw).gatewayCall = some pd) :
    pd.identificationType =
      if c.document.map String.length = some 11 then "CPF" else "CNPJ" := by
  subst hu
  unfold createSubscription at hpd
  repeat' split at hpd
  all_goals simp_all
  all_goals rcases hdoc : c.document with _ | doc <;> simp_all
  all_goals subst hpd
  all_goals rfl

/-- Witness for C7 at a concrete input: an 11-character document yields
identification type "CPF". -/
theorem c7_identification_type_witness :
    (⟨10, "Fatura #7 - Basic", "a@b.c", "Acme", "CPF", "12345678901", 7⟩
        : PaymentData).identificationType =
      if (some "12345678901" : Option String).map String.length = some 11
        then "CPF" else "CNPJ" :=
  c7_identification_type (some 1) (some 7)
    ⟨[⟨7, 1, "pending", some 10, none, none⟩],
     [⟨1, 3, "a@b.c", "Acme", some "12345678901", 100⟩],
     [⟨3, "Basic"⟩]⟩
    (.resp (some 5) "qr" "b64") 1
    ⟨1, 3, "a@b.c", "Acme", some "12345678901", 100⟩
    ⟨10, "Fatura #7 - Basic", "a@b.c", "Acme", "CPF", "12345678901", 7⟩
    rfl (by decide) (by decide)

/-- Counterexample for C3: an approved webhook notification whose invoice
is already paid is answered with the previously-processed success body,
not with {ok:true} — so not every webhook request is answered {ok:true}. -/
theorem c3_counterexample :
    (webhook ⟨some "mercadopago", some "payment.updated", some 5⟩
        ⟨[⟨10, 1, "paid", some 10, none, none⟩], [], []⟩
        (some ⟨"approved", 10⟩) 0).body ≠ AckBody.okTrue ∧
    (webhook ⟨some "mercadopago", some "payment.updated", some 5⟩
        ⟨[⟨10, 1, "paid", some 10, none, none⟩], [], []⟩
        (some ⟨"approved", 10⟩) 0).body = AckBody.prevProcessed "approved" := by
  decide

/-- C3 as amended: every webhook request is answered with HTTP 200 and no
error status ever reaches the gateway; the body is {ok:true} in every case
except one — an approved payment whose referenced invoice exists and is
already paid, which is answered with the previously-processed success body
(still HTTP 200). -/
theorem c3_amended_webhook_always_200 (req : WebhookReq) (db : DB)
    (gwGet : Option PaymentInfo) (now : Nat) :
    (webhook req db gwGet now).httpStatus = 200 ∧
    ((webhook req db gwGet now).body = AckBody.okTrue ∨
      ∃ info inv, gwGet = some info ∧ info.status = "approved" ∧
        findInvoice db info.refId = some inv ∧ inv.status = "paid" ∧
        (webhook req db gwGet now).body = AckBody.prevProcessed info.status) := by
  unfold webhook
  repeat' split
  all_goals simp_all

/-- C4: confirmation is idempotent on a paid invoice — for an approved
payment whose invoice already has status "paid", both the poll entry point
and the webhook entry point leave the whole database (hence the tenant's
due date) unchanged, apply no extension, and answer with the
previously-processed success body. -/
theorem c4_confirmation_idempotent_on_paid (db : DB) (info : PaymentInfo)
    (now now2 : Nat) (req : WebhookReq) (i : Int) (inv : Invoice)
    (hst : info.status = "approved")
    (hinv : findInvoice db info.refId = some inv)
    (hpaid : inv.status = "paid")
    (ht : req.reqType = some "mercadopago")
    (ha : req.action = some "payment.updated" ∨ req.action = some "payment.created")
    (hd : req.dataId = some i) (hi : i ≠ 0) :
    (checkPaymentStatus db (some info) now).db = db ∧
    (checkPaymentStatus db (some info) now).body = PollBody.prevProcessed info.status ∧
    (webhook req db (some info) now2).db = db ∧
    (webhook req db (some info) now2).body = AckBody.prevProcessed info.status := by
  unfold checkPaymentStatus webhook
  simp_all

/-- Witness for C4 at a concrete input: an already-paid invoice, checked
through both entry points, leaves the database untouched and reports the
previously-processed success. -/
theorem c4_confirmation_idempotent_on_paid_witness :
    (checkPaymentStatus ⟨[⟨10, 1, "paid", some 10, none, none⟩], [⟨1, 3, "a@b.c", "Acme", none, 100⟩], []⟩
        (some ⟨"approved", 10⟩) 7).db
      = ⟨[⟨10, 1, "paid", some 10, none, none⟩], [⟨1, 3, "a@b.c", "Acme", none, 100⟩], []⟩ ∧
    (checkPaymentStatus ⟨[⟨10, 1, "paid", some 10, none, none⟩], [⟨1, 3, "a@b.c", "Acme", none, 100⟩], []⟩
        (some ⟨"approved", 10⟩) 7).body = PollBody.prevProcessed "approved" ∧
    (webhook ⟨some "mercadopago", some "payment.created", some 5⟩
        ⟨[⟨10, 1, "paid", some 10, none, none⟩], [⟨1, 3, "a@b.c", "Acme", none, 100⟩], []⟩
        (some ⟨"approved", 10⟩) 9).db
      = ⟨[⟨10, 1, "paid", some 10, none, none⟩], [⟨1, 3, "a@b.c", "Acme", none, 100⟩], []⟩ ∧
    (webhook ⟨some "mercadopago", some "payment.created", some 5⟩
        ⟨[⟨10, 1, "paid", some 10, none, none⟩], [⟨1, 3, "a@b.c", "Acme", none, 100⟩], []⟩
        (some ⟨"approved", 10⟩) 9).body = AckBody.prevProcessed "approved" :=
  c4_confirmation_idempotent_on_paid
    ⟨[⟨10, 1, "paid", some 10, none, none⟩], [⟨1, 3, "a@b.c", "Acme", none, 100⟩], []⟩
    ⟨"approved", 10⟩ 7 9 ⟨some "mercadopago", some "payment.created", some 5⟩ 5
    ⟨10, 1, "paid", some 10, none, none⟩
    rfl (by decide) rfl rfl (Or.inr rfl) rfl (by decide)

/-! Monotonicity helpers for the due date. -/

theorem findCompany_markInvoicePaid (db : DB) (iid : Int) (p : Nat) (l : String)
    (cid : Int) :
    findCompany (markInvoicePaid db iid p l) cid = findCompany db cid := rfl

theorem findCompany_setCompanyDueDate (db : DB) (k : Int) (v : Nat) (cid : Int) :
    findCompany (setCompanyDueDate db k v) cid =
      (findCompany db cid).map
        (fun c => if c.id == k then { c with dueDate := v } else c) := by
  unfold findCompany setCompanyDueDate
  rw [List.find?_map]
  have hp : ((fun co : Company => co.id == cid) ∘ fun c =>
      if c.id == k then { c with dueDate := v } else c)
      = (fun co : Company => co.id == cid) := by
    funext co
    simp only [Function.comp]
    split <;> rfl
  rw [hp]

theorem findCompany_id {db : DB} {cid : Int} {c : Company}
    (h : findCompany db cid = some c) : c.id = cid := by
  unfold findCompany at h
  have h2 := List.find?_some h
  simpa using h2

/-- The database write shared by the two confirmation paths never lowers
the due date any `findCompany` can observe. -/
theorem confirm_update_mono {db : DB} {company : Company} {invCid iid : Int}
    {now pay : Nat} {st : String} {cid : Int} {c c' : Company}
    (hco : findCompany db invCid = some company)
    (h : findCompany db cid = some c)
    (h' : findCompany (markInvoicePaid
        (setCompanyDueDate db company.id (computeNewDueDate company.dueDate now))
        iid pay st) cid = some c') :
    c.dueDate ≤ c'.dueDate := by
  rw [findCompany_markInvoicePaid, findCompany_setCompanyDueDate, h] at h'
  simp only [Option.map_some, Option.map_some', Option.some.injEq] at h'
  by_cases hid : (c.id == company.id) = true
  · rw [if_pos hid] at h'
    have e1 : c.id = cid := findCompany_id h
    have e3 : c.id = company.id := by simpa using hid
    have hcc : c = company := by
      rw [← e1, e3] at h
      rw [← findCompany_id hco] at hco
      rw [hco] at h
      exact (Option.some_inj.1 h).symm
    rw [← h', hcc]
    exact computeNewDueDate_ge _ _
  · rw [if_neg hid] at h'
    rw [← h']

theorem webhook_dueDate_mono {req : WebhookReq} {db : DB} {gwGet : Option PaymentInfo}
    {now : Nat} {cid : Int} {c c' : Company}
    (h : findCompany db cid = some c)
    (h' : findCompany (webhook req db gwGet now).db cid = some c') :
    c.dueDate ≤ c'.dueDate := by
  unfold webhook at h'
  repeat' split at h'
  all_goals try simp_all
  all_goals exact confirm_update_mono (by assumption) h h'

theorem poll_dueDate_mono {db : DB} {gwGet : Option PaymentInfo}
    {now : Nat} {cid : Int} {c c' : Company}
    (h : findCompany db cid = some c)
    (h' : findCompany (checkPaymentStatus db gwGet now).db cid = some c') :
    c.dueDate ≤ c'.dueDate := by
  unfold checkPaymentStatus at h'
  repeat' split at h'
  all_goals try simp_all
  all_goals exact confirm_update_mono (by assumption) h h'

theorem createSubscription_preserves_db (u iv : Option Int) (db : DB)
    (gw : GwCreateOutcome) : (createSubscription u iv db gw).db = db := by
  unfold createSubscription
  repeat' split
  all_goals rfl

/-- C6: the due date of any tenant record observable through `findCompany`
is monotonically non-decreasing under every operation of the feature: the
webhook and poll confirmation paths only rewrite it through the extension
computation, which never lowers it, and createSubscription writes nothing. -/
theorem c6_dueDate_monotone (req : WebhookReq) (db : DB) (gwGet : Option PaymentInfo)
    (now : Nat) (u iv : Option Int) (gwc : GwCreateOutcome) (cid : Int)
    (c1 c1' c2 c2' : Company) :
    (findCompany db cid = some c1 →
      findCompany (webhook req db gwGet now).db cid = some c1' →
      c1.dueDate ≤ c1'.dueDate)
    ∧ (findCompany db cid = some c2 →
      findCompany (checkPaymentStatus db gwGet now).db cid = some c2' →
      c2.dueDate ≤ c2'.dueDate)
    ∧ (createSubscription u iv db gwc).db = db :=
  ⟨fun h h' => webhook_dueDate_mono h h', fun h h' => poll_dueDate_mono h h',
    createSubscription_preserves_db u iv db gwc⟩

/-- Witness for C6 at a concrete input: a webhook confirmation moves the
due date from day 100 to day 130, which is not a decrease. -/
theorem c6_dueDate_monotone_witness :
    (⟨1, 3, "a@b.c", "Acme", none, 100⟩ : Company).dueDate ≤
      (⟨1, 3, "a@b.c", "Acme", none, 130⟩ : Company).dueDate :=
  (c6_dueDate_monotone ⟨some "mercadopago", some "payment.updated", some 5⟩
      ⟨[⟨10, 1, "pending", some 10, none, none⟩], [⟨1, 3, "a@b.c", "Acme", none, 100⟩], []⟩
      (some ⟨"approved", 10⟩) 0 none none (.failure none "x") 1
      ⟨1, 3, "a@b.c", "Acme", none, 100⟩ ⟨1, 3, "a@b.c", "Acme", none, 130⟩
      ⟨1, 3, "a@b.c", "Acme", none, 100⟩ ⟨1, 3, "a@b.c", "Acme", none, 130⟩).1
    (by decide) (by decide)

/-- Counterexample for C8: a cycle that ends in a thrown request error
leaves the attempt counter (and the whole poller state) unchanged —
`attempts++` sits inside the `try` block after the await, so the catch
path never reaches it; the claim said the counter is incremented on every
cycle including error cycles. -/
theorem c8_counterexample :
    pollerStep pollerInit CycleOutcome.error = pollerInit ∧
    ¬ (pollerStep pollerInit CycleOutcome.error).attempts = pollerInit.attempts + 1 := by
  decide

/-- C8 as amended: the poller checks once immediately on mount and then
once per interval tick while the interval is active (no cycle runs once it
is cleared, so no request follows a terminal state); the attempt counter
is incremented exactly on the cycles that finish the `try` block — a
successful cycle carrying the company payload, and an unsuccessful-answer
cycle; a cycle whose request throws leaves the state unchanged, interval
included (so persistent request errors never expire the poller); a cycle
whose answer says success without the company payload — the already-paid
poll body, reachable when the webhook confirms first — stops the spinner
and clears the interval but then throws before the toast and the
increment, leaving the counter unchanged and no terminal notice; a
company-bearing successful cycle transitions to confirmed and clears the
interval; a non-error unsuccessful cycle entered with the counter at the
maximum of 120 or more transitions to the terminal expired state and
clears the interval; unmount clears the interval. -/
theorem c8_amended_poller (s : PollerState) (o : CycleOutcome) :
    (pollerStep s CycleOutcome.error = s)
    ∧ (s.timerActive = false → pollerStep s o = s)
    ∧ (s.timerActive = true → o ≠ CycleOutcome.error →
        o ≠ CycleOutcome.successNoCompany →
        (pollerStep s o).attempts = s.attempts + 1)
    ∧ (s.timerActive = true →
        (pollerStep s CycleOutcome.success).timerActive = false ∧
        (pollerStep s CycleOutcome.success).status = PollerStatus.confirmed)
    ∧ (s.timerActive = true →
        (pollerStep s CycleOutcome.successNoCompany).timerActive = false ∧
        (pollerStep s CycleOutcome.successNoCompany).status = PollerStatus.halted ∧
        (pollerStep s CycleOutcome.successNoCompany).attempts = s.attempts)
    ∧ (s.timerActive = true → maxAttempts ≤ s.attempts →
        (pollerStep s CycleOutcome.failure).timerActive = false ∧
        (pollerStep s CycleOutcome.failure).status = PollerStatus.expired)
    ∧ (s.timerActive = true → s.attempts < maxAttempts →
        (pollerStep s CycleOutcome.failure).status = s.status ∧
        (pollerStep s CycleOutcome.failure).timerActive = true)
    ∧ (pollerUnmount s).timerActive = false := by
  obtain ⟨a, st, t⟩ := s
  refine ⟨?_, ?_, ?_, ?_, ?_, ?_, ?_, rfl⟩
  · cases t <;> rfl
  · intro ht; subst ht; rfl
  · intro ht ho hn; subst ht
    cases o with
    | success => rfl
    | successNoCompany => exact absurd rfl hn
    | failure =>
      show (if maxAttempts ≤ a then (⟨a + 1, PollerStatus.expired, false⟩ : PollerState)
          else ⟨a + 1, st, true⟩).attempts = a + 1
      split <;> rfl
    | error => exact absurd rfl ho
  · intro ht; subst ht; exact ⟨rfl, rfl⟩
  · intro ht; subst ht; exact ⟨rfl, rfl, rfl⟩
  · intro ht hle; subst ht
    have h2 : maxAttempts ≤ a := hle
    show (if maxAttempts ≤ a then (⟨a + 1, PollerStatus.expired, false⟩ : PollerState)
          else ⟨a + 1, st, true⟩).timerActive = false ∧
        (if maxAttempts ≤ a then (⟨a + 1, PollerStatus.expired, false⟩ : PollerState)
          else ⟨a + 1, st, true⟩).status = PollerStatus.expired
    rw [if_pos h2]
    exact ⟨rfl, rfl⟩
  · intro ht hlt; subst ht
    have h2 : a < maxAttempts := hlt
    show (if maxAttempts ≤ a then (⟨a + 1, PollerStatus.expired, false⟩ : PollerState)
          else ⟨a + 1, st, true⟩).status = st ∧
        (if maxAttempts ≤ a then (⟨a + 1, PollerStatus.expired, false⟩ : PollerState)
          else ⟨a + 1, st, true⟩).timerActive = true
    rw [if_neg (Nat.not_le.2 h2)]
    exact ⟨rfl, rfl⟩

/-- Witness for C8 as amended, at concrete inputs: with the counter at 120
and the interval active, a non-error unsuccessful cycle clears the
interval and ends in the expired state; and a success-shaped answer
without the company payload clears the interval, halts, and leaves the
counter at its value. -/
theorem c8_amended_poller_witness :
    ((pollerStep ⟨120, PollerStatus.checking, true⟩ CycleOutcome.failure).timerActive = false ∧
      (pollerStep ⟨120, PollerStatus.checking, true⟩ CycleOutcome.failure).status =
        PollerStatus.expired) ∧
    ((pollerStep ⟨3, PollerStatus.checking, true⟩
        CycleOutcome.successNoCompany).timerActive = false ∧
      (pollerStep ⟨3, PollerStatus.checking, true⟩
        CycleOutcome.successNoCompany).status = PollerStatus.halted ∧
      (pollerStep ⟨3, PollerStatus.checking, true⟩
        CycleOutcome.successNoCompany).attempts = 3) :=
  ⟨(c8_amended_poller ⟨120, PollerStatus.checking, true⟩ CycleOutcome.failure).2.2.2.2.2.1
      rfl (by decide),
    (c8_amended_poller ⟨3, PollerStatus.checking, true⟩
        CycleOutcome.successNoCompany).2.2.2.2.1 rfl⟩

/-- C9: the company-payment real-time event (action "CONCLUIDA") is
emitted exactly on a successful first-time confirmation through the
webhook entry point — the poll entry point emits nothing, ever, even when
it applies the extension itself. -/
theorem c9_event_only_from_webhook (req : WebhookReq) (db : DB)
    (gwGet : Option PaymentInfo) (now : Nat) (info : PaymentInfo) (inv : Invoice)
    (c : Company) (i : Int) :
    ((checkPaymentStatus db gwGet now).events = [])
    ∧ (req.reqType = some "mercadopago" →
        (req.action = some "payment.updated" ∨ req.action = some "payment.created") →
        req.dataId = some i → i ≠ 0 →
        gwGet = some info → info.status = "approved" →
        findInvoice db info.refId = some inv → inv.status ≠ "paid" →
        findCompany db inv.companyId = some c →
        (webhook req db gwGet now).events =
          [⟨"company-" ++ toString c.id ++ "-payment", "CONCLUIDA",
            { c with dueDate := computeNewDueDate c.dueDate now }⟩])
    ∧ ((webhook req db gwGet now).events ≠ [] →
        ∃ info2 inv2 c2, gwGet = some info2 ∧ info2.status = "approved" ∧
          findInvoice db info2.refId = some inv2 ∧ inv2.status ≠ "paid" ∧
          findCompany db inv2.companyId = some c2) := by
  refine ⟨?_, ?_, ?_⟩
  · unfold checkPaymentStatus
    repeat' split
    all_goals rfl
  · intro h1 h2 h3 h4 h5 h6 h7 h8 h9
    subst h5
    unfold webhook
    simp_all
  · intro hne
    unfold webhook at hne
    repeat' split at hne
    all_goals try (exact absurd rfl hne)
    exact ⟨_, _, _, rfl, by assumption, by assumption, by assumption, by assumption⟩

/-- Witness for C9 at a concrete input: a first-time webhook confirmation
emits exactly the one company-payment event. -/
theorem c9_event_only_from_webhook_witness :
    (webhook ⟨some "mercadopago", some "payment.updated", some 5⟩
        ⟨[⟨10, 1, "pending", some 10, none, none⟩], [⟨1, 3, "a@b.c", "Acme", none, 100⟩], []⟩
        (some ⟨"approved", 10⟩) 0).events =
      [⟨"company-" ++ toString (1 : Int) ++ "-payment", "CONCLUIDA",
        { (⟨1, 3, "a@b.c", "Acme", none, 100⟩ : Company) with
            dueDate := computeNewDueDate 100 0 }⟩] :=
  (c9_event_only_from_webhook ⟨some "mercadopago", some "payment.updated", some 5⟩
      ⟨[⟨10, 1, "pending", some 10, none, none⟩], [⟨1, 3, "a@b.c", "Acme", none, 100⟩], []⟩
      (some ⟨"approved", 10⟩) 0 ⟨"approved", 10⟩ ⟨10, 1, "pending", some 10, none, none⟩
      ⟨1, 3, "a@b.c", "Acme", none, 100⟩ 5).2.1
    rfl (Or.inl rfl) rfl (by decide) rfl rfl (by decide) (by decide) (by decide)

end Subscription
